import Mathlib

/-!
Shallow embedding of the fashion-catalog REST API routes
(products, variants, colors, styles, collections, brands).

Each route handler is translated into a pure Lean function over an
explicit store; the HTTP response is captured by the `ApiResponse`
fields (status, success flag, error category, message detail), and
stateful effects are captured by returning the updated store.
-/

/-- The JSON envelope fields every handler writes: HTTP status code,
the optional `success` flag, the optional `error` category and the
optional `message` detail. `none` models an absent JSON field. -/
structure ApiResponse where
  status : Nat
  success : Option Bool
  error : Option String
  message : Option String
deriving Repr, DecidableEq

/-! ## Variants: PATCH /api/v1/variants/:id/stock -/

/-- A product variant row, restricted to the fields the stock
mutation reads and writes: its id and its integer stock count. -/
structure Variant where
  id : String
  stock : Int
deriving Repr, DecidableEq

/-- `prisma.productVariant.findUnique({ where: { id } })`. -/
def findVariant (variants : List Variant) (id : String) : Option Variant :=
  variants.find? (fun v => v.id == id)

/-- The `switch (operation)` of the stock PATCH handler: case "add"
sums, case "subtract" floors at zero via `Math.max(0, ...)`, and both
case "set" and the default branch overwrite with the parsed input. -/
def applyStockOperation (operation : String) (existingStock input : Int) : Int :=
  if operation == "add" then existingStock + input
  else if operation == "subtract" then max 0 (existingStock - input)
  else input

/-- `prisma.productVariant.update({ where: { id }, data: { stock } })`. -/
def updateVariantStock (variants : List Variant) (id : String) (newStock : Int) :
    List Variant :=
  variants.map (fun v => if v.id == id then { v with stock := newStock } else v)

/-- Result of the stock PATCH: the response envelope plus the store. -/
structure StockPatchResult extends ApiResponse where
  variants : List Variant
deriving Repr, DecidableEq

/-- The PATCH /api/v1/variants/:id/stock handler. The body fields are
`stock` (absent = `undefined`) and `operation` (absent defaults to
"set" by destructuring). -/
def patchVariantStock (variants : List Variant) (id : String)
    (stock : Option Int) (operation : Option String) : StockPatchResult :=
  match stock with
  | none =>
    { status := 400, success := some false,
      error := some "Stock value is required", message := none,
      variants := variants }
  | some input =>
    match findVariant variants id with
    | none =>
      { status := 404, success := some false,
        error := some "Variant not found", message := none,
        variants := variants }
    | some existingVariant =>
      let newStock := applyStockOperation (operation.getD "set")
        existingVariant.stock input
      { status := 200, success := some true, error := none,
        message := some "Variant stock updated successfully",
        variants := updateVariantStock variants id newStock }

/-! ## List filters: the inStock query parameter -/

/-- A product row restricted to the two stock-related fields: the
boolean `inStock` flag and the integer `quantityInStock` count. -/
structure ProductStockRow where
  inStock : Bool
  quantityInStock : Int
deriving Repr, DecidableEq

/-- The products list filter for `inStock`:
`where.inStock = inStock === "true"` — equality on the boolean flag. -/
def productInStockWhere (inStock : String) (p : ProductStockRow) : Bool :=
  p.inStock == (inStock == "true")

/-- The variants list filter for `inStock`:
`where.stock = inStock === "true" ? { gt: 0 } : { lte: 0 }`. -/
def variantStockWhere (inStock : String) (stock : Int) : Bool :=
  if inStock == "true" then decide (0 < stock) else decide (stock ≤ 0)

/-! ## The global error handler and the 404 route handler -/

/-- The global error handler: P2002 maps to 400, P2025 to 404, and
everything else to 500 with the underlying message shown only when
`process.env.NODE_ENV === "development"`. Neither branch writes a
`success` field. -/
def globalErrorHandler (code : Option String) (nodeEnv : String)
    (errorMessage : String) : ApiResponse :=
  if code == some "P2002" then
    { status := 400, success := none,
      error := some "Unique constraint violation",
      message := some "A record with this data already exists." }
  else if code == some "P2025" then
    { status := 404, success := none,
      error := some "Record not found",
      message := some "The requested record does not exist." }
  else
    { status := 500, success := none,
      error := some "Internal server error",
      message := some (if nodeEnv == "development" then errorMessage
        else "Something went wrong.") }

/-- The catch block of GET /api/v1/products: a 500 envelope that
always includes the underlying error message, with no reference to
NODE_ENV. -/
def productsListCatch (errorMessage : String) : ApiResponse :=
  { status := 500, success := some false,
    error := some "Failed to fetch products",
    message := some errorMessage }

/-- The `app.use("*")` fallback for non-matching routes: a 404 body
containing only `error` and `message`, with no `success` field. -/
def notFoundRouteHandler (originalUrl : String) : ApiResponse :=
  { status := 404, success := none,
    error := some "Route not found",
    message := some ("The requested route " ++ originalUrl ++
      " does not exist.") }

/-! ## Delete guards: DELETE on colors, styles, brands, collections -/

/-- The foreign keys of a variant row that the delete guards count. -/
structure VariantRef where
  colorId : Option String
  styleId : Option String
deriving Repr, DecidableEq

/-- The foreign key of a product row that the brand delete guard counts. -/
structure ProductRef where
  brandId : Option String
deriving Repr, DecidableEq

/-- The slice of the database the four DELETE handlers touch: the four
entity tables (as id lists) and the referencing rows. Join rows are
(parent id, collection id) pairs. -/
structure Catalog where
  colors : List String
  styles : List String
  brands : List String
  collections : List String
  variantRefs : List VariantRef
  productRefs : List ProductRef
  productCollections : List (String × String)
  variantCollections : List (String × String)
deriving Repr, DecidableEq

/-- `_count.variants` of a color: variants whose colorId is this id. -/
def colorVariantCount (c : Catalog) (id : String) : Nat :=
  (c.variantRefs.filter (fun v => v.colorId == some id)).length

/-- `_count.variants` of a style: variants whose styleId is this id. -/
def styleVariantCount (c : Catalog) (id : String) : Nat :=
  (c.variantRefs.filter (fun v => v.styleId == some id)).length

/-- `_count.products` of a brand: products whose brandId is this id. -/
def brandProductCount (c : Catalog) (id : String) : Nat :=
  (c.productRefs.filter (fun p => p.brandId == some id)).length

/-- `_count.products` of a collection: its product join rows. -/
def collectionProductCount (c : Catalog) (id : String) : Nat :=
  (c.productCollections.filter (fun r => r.2 == id)).length

/-- `_count.variants` of a collection: its variant join rows. -/
def collectionVariantCount (c : Catalog) (id : String) : Nat :=
  (c.variantCollections.filter (fun r => r.2 == id)).length

/-- Result of a DELETE handler: the envelope plus the store after. -/
structure DeleteResult extends ApiResponse where
  catalog : Catalog
deriving Repr, DecidableEq

/-- DELETE /api/v1/colors/:id — findUnique with variant count; 404 if
absent, 400 if any variant references the color, else delete. -/
def deleteColor (c : Catalog) (id : String) : DeleteResult :=
  if !(c.colors.contains id) then
    { status := 404, success := some false,
      error := some "Color not found", message := none, catalog := c }
  else if 0 < colorVariantCount c id then
    { status := 400, success := some false,
      error := some "Cannot delete color that is used by product variants",
      message := none, catalog := c }
  else
    { status := 200, success := some true, error := none,
      message := some "Color deleted successfully",
      catalog := { c with colors := c.colors.filter (fun x => x != id) } }

/-- DELETE /api/v1/styles/:id — same shape with the variant count. -/
def deleteStyle (c : Catalog) (id : String) : DeleteResult :=
  if !(c.styles.contains id) then
    { status := 404, success := some false,
      error := some "Style not found", message := none, catalog := c }
  else if 0 < styleVariantCount c id then
    { status := 400, success := some false,
      error := some "Cannot delete style that is used by product variants",
      message := none, catalog := c }
  else
    { status := 200, success := some true, error := none,
      message := some "Style deleted successfully",
      catalog := { c with styles := c.styles.filter (fun x => x != id) } }

/-- DELETE /api/v1/brands/:id — same shape with the product count. -/
def deleteBrand (c : Catalog) (id : String) : DeleteResult :=
  if !(c.brands.contains id) then
    { status := 404, success := some false,
      error := some "Brand not found", message := none, catalog := c }
  else if 0 < brandProductCount c id then
    { status := 400, success := some false,
      error := some "Cannot delete brand that has products",
      message := none, catalog := c }
  else
    { status := 200, success := some true, error := none,
      message := some "Brand deleted successfully",
      catalog := { c with brands := c.brands.filter (fun x => x != id) } }

/-- DELETE /api/v1/collections/:id — guard on product or variant join
rows (`_count.products > 0 || _count.variants > 0`). -/
def deleteCollection (c : Catalog) (id : String) : DeleteResult :=
  if !(c.collections.contains id) then
    { status := 404, success := some false,
      error := some "Collection not found", message := none, catalog := c }
  else if 0 < collectionProductCount c id ∨ 0 < collectionVariantCount c id then
    { status := 400, success := some false,
      error := some "Cannot delete collection that contains products or variants",
      message := none, catalog := c }
  else
    { status := 200, success := some true, error := none,
      message := some "Collection deleted successfully",
      catalog := { c with collections := c.collections.filter (fun x => x != id) } }

/-! ## Pagination of the list endpoints -/

/-- The pagination block of a list response. `pages` is
`Math.ceil(total / limit)`, a ceiling over the rationals. -/
structure Pagination where
  page : Nat
  limit : Nat
  total : Nat
  pages : Int
deriving Repr, DecidableEq

/-- `Math.ceil(total / parseInt(limit))`. -/
def ceilPages (total limit : Nat) : Int :=
  ⌈(total : ℚ) / (limit : ℚ)⌉

/-- The shared list-endpoint pattern: filter by the where predicate,
skip `(page - 1) * limit` rows, take `limit` rows, and report the
total count of the filtered set with its page count. -/
def listEndpoint {α : Type} (records : List α) (whereArg : α → Bool)
    (page limit : Nat) : List α × Pagination :=
  let filtered := records.filter whereArg
  let skip := (page - 1) * limit
  ((filtered.drop skip).take limit,
   { page := page, limit := limit, total := filtered.length,
     pages := ceilPages filtered.length limit })

/-! ## Replacing collection associations on update -/

/-- A row of the productCollection join table. -/
structure ProductCollectionRow where
  productId : String
  collectionId : String
deriving Repr, DecidableEq

/-- A row of the variantCollection join table. -/
structure VariantCollectionRow where
  variantId : String
  collectionId : String
deriving Repr, DecidableEq

/-- The collections step of PUT /api/v1/products/:id: when
`collectionIds` is supplied, deleteMany all join rows of this product,
then createMany one row per supplied id when the list is non-empty;
when absent (`undefined`), the join table is untouched. -/
def replaceProductCollections (rows : List ProductCollectionRow)
    (productId : String) (collectionIds : Option (List String)) :
    List ProductCollectionRow :=
  match collectionIds with
  | none => rows
  | some ids =>
    let remaining := rows.filter (fun r => r.productId != productId)
    if 0 < ids.length then
      remaining ++ ids.map (fun collectionId =>
        { productId := productId, collectionId := collectionId })
    else remaining

/-- The collections step of PUT /api/v1/variants/:id, identical in
shape over the variantCollection join table. -/
def replaceVariantCollections (rows : List VariantCollectionRow)
    (variantId : String) (collectionIds : Option (List String)) :
    List VariantCollectionRow :=
  match collectionIds with
  | none => rows
  | some ids =>
    let remaining := rows.filter (fun r => r.variantId != variantId)
    if 0 < ids.length then
      remaining ++ ids.map (fun collectionId =>
        { variantId := variantId, collectionId := collectionId })
    else remaining

/-! ## Styles: POST /api/v1/styles and the fit type enum -/

/-- JavaScript `String.prototype.toUpperCase()`: upper-case every
character. Written over the character list so it evaluates by kernel
reduction. -/
def String.jsToUpperCase (s : String) : String :=
  ⟨s.data.map Char.toUpper⟩

/-- JavaScript `String.prototype.trim()`: strip whitespace from both
ends. Written over the character list so it evaluates by kernel
reduction. -/
def String.jsTrim (s : String) : String :=
  ⟨(((s.data.dropWhile (fun c => c.isWhitespace)).reverse.dropWhile
    (fun c => c.isWhitespace)).reverse)⟩

/-- The enumerated fit types of the style routes. -/
def validFitTypes : List String := ["SKINNY", "RELAXED", "OVERSIZED", "CLASSIC"]

/-- A style row: name (unique) and fit type. -/
structure StyleRow where
  name : String
  fitType : String
deriving Repr, DecidableEq

/-- Result of POST /api/v1/styles: envelope, store after, created row. -/
structure CreateStyleResult extends ApiResponse where
  styles : List StyleRow
  data : Option StyleRow
deriving Repr, DecidableEq

/-- POST /api/v1/styles. Missing name or fit type is a 400; a fit type
whose upper case is outside the enum is a 400; a duplicate name makes
`prisma.style.create` throw P2002, answered with 400; otherwise the
row is stored with the name trimmed and the fit type upper-cased. An
absent body field arrives as the empty string (JS falsy). -/
def createStyle (styles : List StyleRow) (name fitType : String) :
    CreateStyleResult :=
  if name == "" then
    { status := 400, success := some false,
      error := some "Style name is required", message := none,
      styles := styles, data := none }
  else if fitType == "" then
    { status := 400, success := some false,
      error := some "Fit type is required", message := none,
      styles := styles, data := none }
  else if !(validFitTypes.contains fitType.jsToUpperCase) then
    { status := 400, success := some false,
      error := some "Invalid fit type. Must be one of: SKINNY, RELAXED, OVERSIZED, CLASSIC",
      message := none, styles := styles, data := none }
  else if styles.any (fun s => s.name == name.jsTrim) then
    { status := 400, success := some false,
      error := some "Style name already exists", message := none,
      styles := styles, data := none }
  else
    { status := 201, success := some true, error := none,
      message := some "Style created successfully",
      styles := styles ++ [{ name := name.jsTrim, fitType := fitType.jsToUpperCase }],
      data := some { name := name.jsTrim, fitType := fitType.jsToUpperCase } }

/-! ## Bulk create for colors and styles -/

/-- A color row: name (unique) and optional hex code. -/
structure ColorRow where
  name : String
  hexCode : Option String
deriving Repr, DecidableEq

/-- One entry of a bulk-create body; either field may be absent. -/
structure ColorInput where
  name : Option String
  hexCode : Option String
deriving Repr, DecidableEq

/-- One entry of a styles bulk-create body. -/
structure StyleInput where
  name : Option String
  fitType : Option String
deriving Repr, DecidableEq

/-- The colors bulk filter: the trimmed name truthy, i.e. the
name is present and non-blank. -/
def colorInputValid (c : ColorInput) : Bool :=
  match c.name with
  | some n => n.jsTrim != ""
  | none => false

/-- The styles bulk filter: non-blank name, a present fitType, and
its upper case in the enum. -/
def styleInputValid (s : StyleInput) : Bool :=
  (match s.name with
   | some n => n.jsTrim != ""
   | none => false) &&
  (match s.fitType with
   | some f => f != "" && validFitTypes.contains f.jsToUpperCase
   | none => false)

/-- `createMany({ data, skipDuplicates: true })`: rows are inserted in
order, and a row whose unique key collides with the store built so far
is skipped. Returns the store after and the inserted count. -/
def createManySkipDuplicates {α : Type} (key : α → String)
    (store : List α) : List α → List α × Nat
  | [] => (store, 0)
  | r :: rest =>
    if store.any (fun x => key x == key r) then
      createManySkipDuplicates key store rest
    else
      let p := createManySkipDuplicates key (store ++ [r]) rest
      (p.1, p.2 + 1)

/-- The stored shape of a valid color entry: trimmed name, trimmed
hex code or null when blank or absent. -/
def colorInputRow (c : ColorInput) : ColorRow :=
  { name := (c.name.getD "").jsTrim,
    hexCode := match c.hexCode with
      | some h => if h.jsTrim != "" then some h.jsTrim else none
      | none => none }

/-- The stored shape of a valid style entry. -/
def styleInputRow (s : StyleInput) : StyleRow :=
  { name := (s.name.getD "").jsTrim,
    fitType := (s.fitType.getD "").jsToUpperCase }

/-- Result of a bulk create over colors. -/
structure BulkColorResult extends ApiResponse where
  store : List ColorRow
  count : Option Nat
deriving Repr, DecidableEq

/-- Result of a bulk create over styles. -/
structure BulkStyleResult extends ApiResponse where
  store : List StyleRow
  count : Option Nat
deriving Repr, DecidableEq

/-- POST /api/v1/colors/bulk: reject an empty array, filter out
entries without a non-blank name, reject wholesale when none remain,
else insert skipping duplicate names and report the count. -/
def bulkCreateColors (store : List ColorRow) (colors : List ColorInput) :
    BulkColorResult :=
  if colors.isEmpty then
    { status := 400, success := some false,
      error := some "Colors array is required", message := none,
      store := store, count := none }
  else
    let validColors := colors.filter colorInputValid
    if validColors.isEmpty then
      { status := 400, success := some false,
        error := some "At least one valid color with name is required",
        message := none, store := store, count := none }
    else
      let p := createManySkipDuplicates (fun r => r.name) store
        (validColors.map colorInputRow)
      { status := 201, success := some true, error := none,
        message := some "colors created successfully",
        store := p.1, count := some p.2 }

/-- POST /api/v1/styles/bulk: the same pattern with the style filter. -/
def bulkCreateStyles (store : List StyleRow) (styles : List StyleInput) :
    BulkStyleResult :=
  if styles.isEmpty then
    { status := 400, success := some false,
      error := some "Styles array is required", message := none,
      store := store, count := none }
  else
    let validStyles := styles.filter styleInputValid
    if validStyles.isEmpty then
      { status := 400, success := some false,
        error := some "At least one valid style with name and fitType is required",
        message := none, store := store, count := none }
    else
      let p := createManySkipDuplicates (fun r => r.name) store
        (validStyles.map styleInputRow)
      { status := 201, success := some true, error := none,
        message := some "styles created successfully",
        store := p.1, count := some p.2 }

/-- A catalog in which every entity is referenced: the variant row
points at color c1 and style s1, the product row at brand b1, and a
product join row points at collection k1. -/
def catalogReferenced : Catalog :=
  { colors := ["c1"], styles := ["s1"], brands := ["b1"],
    collections := ["k1"],
    variantRefs := [{ colorId := some "c1", styleId := some "s1" }],
    productRefs := [{ brandId := some "b1" }],
    productCollections := [("p1", "k1")], variantCollections := [] }

/-- The same catalog with every referencing row removed. -/
def catalogUnreferenced : Catalog :=
  { colors := ["c1"], styles := ["s1"], brands := ["b1"],
    collections := ["k1"],
    variantRefs := [], productRefs := [],
    productCollections := [], variantCollections := [] }

/-! ## Helper lemmas -/

/-- Updating the stock of the variant found under an id makes the next
lookup return the same row with the new stock. -/
theorem findVariant_updateVariantStock (variants : List Variant) (id : String)
    (s : Int) (v : Variant) (h : findVariant variants id = some v) :
    findVariant (updateVariantStock variants id s) id =
      some { v with stock := s } := by
  induction variants with
  | nil => simp [findVariant] at h
  | cons a rest ih =>
    cases ha : (a.id == id) with
    | true =>
      have hid : a.id = id := by simpa using ha
      have hav : a = v := by
        simpa [findVariant, List.find?_cons, ha] using h
      subst hav
      simp [findVariant, updateVariantStock, List.find?_cons, hid,
        -List.find?_map]
    | false =>
      have hid : ¬(a.id = id) := by simpa using ha
      have hrest : findVariant rest id = some v := by
        simpa [findVariant, List.find?_cons, ha] using h
      have htail := ih hrest
      simpa [findVariant, updateVariantStock, List.find?_cons, hid,
        -List.find?_map] using htail

/-! ## Claim theorems -/

/-- Claim C1: in the variant stock mutation, for every existing
variant and integer input, operation "add" stores the exact sum,
operation "subtract" stores max(0, old - input) and so never a
negative stock, and operation "set" (also when the operation field is
omitted) overwrites with the input; an absent stock field gives 400
with the store untouched, and an unknown variant id gives 404 with
the store untouched. -/
theorem variant_stock_mutation_spec (variants : List Variant) (id : String)
    (input : Int) (op : Option String) :
    ((patchVariantStock variants id none op).status = 400 ∧
      (patchVariantStock variants id none op).variants = variants) ∧
    (findVariant variants id = none →
      (patchVariantStock variants id (some input) op).status = 404 ∧
      (patchVariantStock variants id (some input) op).variants = variants) ∧
    (∀ v, findVariant variants id = some v →
      ((patchVariantStock variants id (some input) (some "add")).status = 200 ∧
        findVariant (patchVariantStock variants id (some input)
          (some "add")).variants id = some { v with stock := v.stock + input }) ∧
      ((patchVariantStock variants id (some input) (some "subtract")).status = 200 ∧
        findVariant (patchVariantStock variants id (some input)
          (some "subtract")).variants id =
            some { v with stock := max 0 (v.stock - input) } ∧
        (0 : Int) ≤ max 0 (v.stock - input)) ∧
      ((patchVariantStock variants id (some input) none).status = 200 ∧
        findVariant (patchVariantStock variants id (some input)
          none).variants id = some { v with stock := input }) ∧
      ((patchVariantStock variants id (some input) (some "set")).status = 200 ∧
        findVariant (patchVariantStock variants id (some input)
          (some "set")).variants id = some { v with stock := input })) := by
  refine ⟨⟨rfl, rfl⟩, ?_, ?_⟩
  · intro hnone
    simp [patchVariantStock, hnone]
  · intro v hv
    have hupd := findVariant_updateVariantStock variants id
    refine ⟨⟨?_, ?_⟩, ⟨?_, ?_, le_max_left 0 _⟩, ⟨?_, ?_⟩, ⟨?_, ?_⟩⟩ <;>
      simp [patchVariantStock, hv, applyStockOperation, hupd _ v hv]

/-- Witness for C1 at the scenario of the spec: stock 3, subtract 5
floors at 0; an absent stock field is a 400; a missing id is a 404;
add is the exact sum. -/
theorem variant_stock_mutation_spec_witness :
    (patchVariantStock [⟨"v1", 3⟩] "v1" none none).status = 400 ∧
    findVariant (patchVariantStock [⟨"v1", 3⟩] "v1" (some 5)
      (some "subtract")).variants "v1" = some ⟨"v1", 0⟩ ∧
    findVariant (patchVariantStock [⟨"v1", 3⟩] "v1" (some 5)
      (some "add")).variants "v1" = some ⟨"v1", 8⟩ ∧
    (patchVariantStock [] "missing" (some 5) none).status = 404 := by
  refine ⟨(variant_stock_mutation_spec [⟨"v1", 3⟩] "v1" 5 none).1.1, ?_, ?_, ?_⟩
  · exact (((variant_stock_mutation_spec [⟨"v1", 3⟩] "v1" 5 none).2.2
      ⟨"v1", 3⟩ (by decide)).2.1.2.1).trans (by decide)
  · exact (((variant_stock_mutation_spec [⟨"v1", 3⟩] "v1" 5 none).2.2
      ⟨"v1", 3⟩ (by decide)).1.2).trans (by decide)
  · exact ((variant_stock_mutation_spec [] "missing" 5 none).2.1
      (by decide)).1

/-- Claim C10: any operation string other than exactly "add" and
"subtract" falls through to the default "set" branch and overwrites
the stock with the input; only those two strings select arithmetic. -/
theorem stock_operation_default_spec (variants : List Variant) (id : String)
    (existingStock input : Int) (op : String)
    (hadd : op ≠ "add") (hsub : op ≠ "subtract") :
    applyStockOperation op existingStock input = input ∧
    (∀ v, findVariant variants id = some v →
      findVariant (patchVariantStock variants id (some input)
        (some op)).variants id = some { v with stock := input }) := by
  have hop : applyStockOperation op existingStock input = input := by
    simp [applyStockOperation, hadd, hsub]
  refine ⟨hop, ?_⟩
  intro v hv
  have hupd := findVariant_updateVariantStock variants id input v hv
  simp [patchVariantStock, hv, applyStockOperation, hadd, hsub, hupd]

/-- Witness for C10: operation "increment" on stock 3 with input 7
overwrites to 7 instead of adding. -/
theorem stock_operation_default_spec_witness :
    applyStockOperation "increment" 3 7 = 7 ∧
    findVariant (patchVariantStock [⟨"v1", 3⟩] "v1" (some 7)
      (some "increment")).variants "v1" = some ⟨"v1", 7⟩ := by
  have h := stock_operation_default_spec [⟨"v1", 3⟩] "v1" 3 7 "increment"
    (by decide) (by decide)
  exact ⟨h.1, h.2 ⟨"v1", 3⟩ (by decide)⟩

/-- Claim C2: deleting a Color, Style, Brand or Collection that is
still referenced (by a variant, a product, or a join row) answers 400
and leaves the store unchanged; deleting it once its reference count
is zero answers 200 and removes it; deleting a missing id answers 404
and leaves the store unchanged. -/
theorem delete_guard_spec (c : Catalog) (id : String) :
    ((c.colors.contains id = true → 0 < colorVariantCount c id →
        (deleteColor c id).status = 400 ∧ (deleteColor c id).catalog = c) ∧
      (c.colors.contains id = true → colorVariantCount c id = 0 →
        (deleteColor c id).status = 200 ∧
        id ∉ (deleteColor c id).catalog.colors) ∧
      (c.colors.contains id = false →
        (deleteColor c id).status = 404 ∧ (deleteColor c id).catalog = c)) ∧
    ((c.styles.contains id = true → 0 < styleVariantCount c id →
        (deleteStyle c id).status = 400 ∧ (deleteStyle c id).catalog = c) ∧
      (c.styles.contains id = true → styleVariantCount c id = 0 →
        (deleteStyle c id).status = 200 ∧
        id ∉ (deleteStyle c id).catalog.styles) ∧
      (c.styles.contains id = false →
        (deleteStyle c id).status = 404 ∧ (deleteStyle c id).catalog = c)) ∧
    ((c.brands.contains id = true → 0 < brandProductCount c id →
        (deleteBrand c id).status = 400 ∧ (deleteBrand c id).catalog = c) ∧
      (c.brands.contains id = true → brandProductCount c id = 0 →
        (deleteBrand c id).status = 200 ∧
        id ∉ (deleteBrand c id).catalog.brands) ∧
      (c.brands.contains id = false →
        (deleteBrand c id).status = 404 ∧ (deleteBrand c id).catalog = c)) ∧
    ((c.collections.contains id = true →
        (0 < collectionProductCount c id ∨ 0 < collectionVariantCount c id) →
        (deleteCollection c id).status = 400 ∧
        (deleteCollection c id).catalog = c) ∧
      (c.collections.contains id = true → collectionProductCount c id = 0 →
        collectionVariantCount c id = 0 →
        (deleteCollection c id).status = 200 ∧
        id ∉ (deleteCollection c id).catalog.collections) ∧
      (c.collections.contains id = false →
        (deleteCollection c id).status = 404 ∧
        (deleteCollection c id).catalog = c)) := by
  refine ⟨⟨?_, ?_, ?_⟩, ⟨?_, ?_, ?_⟩, ⟨?_, ?_, ?_⟩, ⟨?_, ?_, ?_⟩⟩
  · intro h1 h2
    have hm : id ∈ c.colors := by simpa using h1
    simp [deleteColor, hm, h2]
  · intro h1 h2
    have hm : id ∈ c.colors := by simpa using h1
    simp [deleteColor, hm, h2, List.mem_filter]
  · intro h1
    have hm : id ∉ c.colors := by simpa using h1
    simp [deleteColor, hm]
  · intro h1 h2
    have hm : id ∈ c.styles := by simpa using h1
    simp [deleteStyle, hm, h2]
  · intro h1 h2
    have hm : id ∈ c.styles := by simpa using h1
    simp [deleteStyle, hm, h2, List.mem_filter]
  · intro h1
    have hm : id ∉ c.styles := by simpa using h1
    simp [deleteStyle, hm]
  · intro h1 h2
    have hm : id ∈ c.brands := by simpa using h1
    simp [deleteBrand, hm, h2]
  · intro h1 h2
    have hm : id ∈ c.brands := by simpa using h1
    simp [deleteBrand, hm, h2, List.mem_filter]
  · intro h1
    have hm : id ∉ c.brands := by simpa using h1
    simp [deleteBrand, hm]
  · intro h1 h2
    have hm : id ∈ c.collections := by simpa using h1
    simp [deleteCollection, hm, h2]
  · intro h1 h2 h3
    have hm : id ∈ c.collections := by simpa using h1
    simp [deleteCollection, hm, h2, h3, List.mem_filter]
  · intro h1
    have hm : id ∉ c.collections := by simpa using h1
    simp [deleteCollection, hm]

/-- Witness for C2 on concrete catalogs: each referenced entity is a
400, each unreferenced entity deletes with the id gone, and a missing
id is a 404, for all four entity kinds. -/
theorem delete_guard_spec_witness :
    ((deleteColor catalogReferenced "c1").status = 400 ∧
      (deleteColor catalogReferenced "c1").catalog = catalogReferenced) ∧
    ((deleteColor catalogUnreferenced "c1").status = 200 ∧
      "c1" ∉ (deleteColor catalogUnreferenced "c1").catalog.colors) ∧
    (deleteColor catalogUnreferenced "zz").status = 404 ∧
    (deleteStyle catalogReferenced "s1").status = 400 ∧
    ((deleteStyle catalogUnreferenced "s1").status = 200 ∧
      "s1" ∉ (deleteStyle catalogUnreferenced "s1").catalog.styles) ∧
    (deleteStyle catalogUnreferenced "zz").status = 404 ∧
    (deleteBrand catalogReferenced "b1").status = 400 ∧
    ((deleteBrand catalogUnreferenced "b1").status = 200 ∧
      "b1" ∉ (deleteBrand catalogUnreferenced "b1").catalog.brands) ∧
    (deleteBrand catalogUnreferenced "zz").status = 404 ∧
    (deleteCollection catalogReferenced "k1").status = 400 ∧
    ((deleteCollection catalogUnreferenced "k1").status = 200 ∧
      "k1" ∉ (deleteCollection catalogUnreferenced "k1").catalog.collections) ∧
    (deleteCollection catalogUnreferenced "zz").status = 404 := by
  refine ⟨?_, ?_, ?_, ?_, ?_, ?_, ?_, ?_, ?_, ?_, ?_, ?_⟩
  · exact (delete_guard_spec catalogReferenced "c1").1.1
      (by decide) (by decide)
  · exact (delete_guard_spec catalogUnreferenced "c1").1.2.1
      (by decide) (by decide)
  · exact ((delete_guard_spec catalogUnreferenced "zz").1.2.2 (by decide)).1
  · exact ((delete_guard_spec catalogReferenced "s1").2.1.1
      (by decide) (by decide)).1
  · exact (delete_guard_spec catalogUnreferenced "s1").2.1.2.1
      (by decide) (by decide)
  · exact ((delete_guard_spec catalogUnreferenced "zz").2.1.2.2 (by decide)).1
  · exact ((delete_guard_spec catalogReferenced "b1").2.2.1.1
      (by decide) (by decide)).1
  · exact (delete_guard_spec catalogUnreferenced "b1").2.2.1.2.1
      (by decide) (by decide)
  · exact ((delete_guard_spec catalogUnreferenced "zz").2.2.1.2.2
      (by decide)).1
  · exact ((delete_guard_spec catalogReferenced "k1").2.2.2.1
      (by decide) (Or.inl (by decide))).1
  · exact (delete_guard_spec catalogUnreferenced "k1").2.2.2.2.1
      (by decide) (by decide) (by decide)
  · exact ((delete_guard_spec catalogUnreferenced "zz").2.2.2.2.2
      (by decide)).1

/-- Claim C3: for every list endpoint and valid numeric page and
limit, the pagination block reports pages equal to the rational
ceiling of total over limit (stated below also through the two
defining bounds of a ceiling), the returned item count is at most
limit, and the query skips exactly (page - 1) * limit filtered
records before taking limit of them. -/
theorem pagination_spec {α : Type} (records : List α) (whereArg : α → Bool)
    (page limit : Nat) (hp : 1 ≤ page) (hl : 1 ≤ limit) :
    ((listEndpoint records whereArg page limit).2.pages =
      ⌈(((listEndpoint records whereArg page limit).2.total : ℚ)) /
        (((listEndpoint records whereArg page limit).2.limit : ℚ))⌉) ∧
    ((listEndpoint records whereArg page limit).1.length ≤ limit) ∧
    ((listEndpoint records whereArg page limit).1 =
      ((records.filter whereArg).drop ((page - 1) * limit)).take limit) ∧
    ((((listEndpoint records whereArg page limit).2.total : ℚ)) / (limit : ℚ) ≤
      (((listEndpoint records whereArg page limit).2.pages : ℚ))) ∧
    (∀ k : ℤ, (((listEndpoint records whereArg page limit).2.total : ℚ)) /
        (limit : ℚ) ≤ (k : ℚ) →
      (listEndpoint records whereArg page limit).2.pages ≤ k) := by
  refine ⟨rfl, ?_, rfl, ?_, ?_⟩
  · show (((records.filter whereArg).drop ((page - 1) * limit)).take limit).length ≤ limit
    simp [List.length_take]
  · exact Int.le_ceil _
  · intro k hk
    exact Int.ceil_le.mpr hk

/-- Witness for C3: five records, a filter keeping four of them,
page 2 and limit 2 return exactly the last two, at most limit items,
and a page count of 2. -/
theorem pagination_spec_witness :
    (listEndpoint [1, 2, 3, 4, 5] (fun n => decide (2 ≤ n)) 2 2).1 = [4, 5] ∧
    (listEndpoint [1, 2, 3, 4, 5] (fun n => decide (2 ≤ n)) 2 2).1.length ≤ 2 ∧
    (listEndpoint [1, 2, 3, 4, 5] (fun n => decide (2 ≤ n)) 2 2).2.pages = 2 := by
  have h := pagination_spec [1, 2, 3, 4, 5] (fun n => decide (2 ≤ n)) 2 2
    (by decide) (by decide)
  refine ⟨h.2.2.1.trans (by decide), h.2.1, ?_⟩
  have hc : ceilPages 4 2 = 2 := by
    norm_num [ceilPages]
  exact hc

/-- Claim C4: on a product or variant update that supplies
collectionIds, the join rows of that parent become exactly one row
per supplied id (the empty list leaves zero associations), the join
rows of other parents are untouched, and an absent collectionIds
leaves the join table unchanged. -/
theorem collections_replace_spec (prows : List ProductCollectionRow)
    (vrows : List VariantCollectionRow) (pid vid : String) :
    ((∀ ids, (replaceProductCollections prows pid (some ids)).filter
        (fun r => r.productId == pid) =
      ids.map (fun collectionId =>
        { productId := pid, collectionId := collectionId })) ∧
    ((replaceProductCollections prows pid (some [])).filter
        (fun r => r.productId == pid) = []) ∧
    (replaceProductCollections prows pid none = prows) ∧
    (∀ ids, (replaceProductCollections prows pid (some ids)).filter
        (fun r => r.productId != pid) =
      prows.filter (fun r => r.productId != pid))) ∧
    ((∀ ids, (replaceVariantCollections vrows vid (some ids)).filter
        (fun r => r.variantId == vid) =
      ids.map (fun collectionId =>
        { variantId := vid, collectionId := collectionId })) ∧
    ((replaceVariantCollections vrows vid (some [])).filter
        (fun r => r.variantId == vid) = []) ∧
    (replaceVariantCollections vrows vid none = vrows) ∧
    (∀ ids, (replaceVariantCollections vrows vid (some ids)).filter
        (fun r => r.variantId != vid) =
      vrows.filter (fun r => r.variantId != vid))) := by
  have hpnil : ∀ (l : List ProductCollectionRow),
      (l.filter (fun r => r.productId != pid)).filter
        (fun r => r.productId == pid) = [] := by
    intro l
    rw [List.filter_filter, List.filter_eq_nil_iff]
    intro a _
    simp
  have hpidem : ∀ (l : List ProductCollectionRow),
      (l.filter (fun r => r.productId != pid)).filter
        (fun r => r.productId != pid) =
      l.filter (fun r => r.productId != pid) := by
    intro l
    rw [List.filter_filter]
    simp
  have hvnil : ∀ (l : List VariantCollectionRow),
      (l.filter (fun r => r.variantId != vid)).filter
        (fun r => r.variantId == vid) = [] := by
    intro l
    rw [List.filter_filter, List.filter_eq_nil_iff]
    intro a _
    simp
  have hvidem : ∀ (l : List VariantCollectionRow),
      (l.filter (fun r => r.variantId != vid)).filter
        (fun r => r.variantId != vid) =
      l.filter (fun r => r.variantId != vid) := by
    intro l
    rw [List.filter_filter]
    simp
  refine ⟨⟨?_, ?_, rfl, ?_⟩, ⟨?_, ?_, rfl, ?_⟩⟩
  · intro ids
    cases ids with
    | nil => simpa [replaceProductCollections] using hpnil prows
    | cons a rest =>
      simp only [replaceProductCollections, List.length_cons]
      rw [if_pos (Nat.succ_pos _), List.filter_append, hpnil prows,
        List.nil_append, List.filter_eq_self.mpr]
      intro r hr
      obtain ⟨cid, _, rfl⟩ := List.mem_map.mp hr
      simp
  · simpa [replaceProductCollections] using hpnil prows
  · intro ids
    cases ids with
    | nil => simpa [replaceProductCollections] using hpidem prows
    | cons a rest =>
      simp only [replaceProductCollections, List.length_cons]
      rw [if_pos (Nat.succ_pos _), List.filter_append, hpidem prows]
      have : (((a :: rest).map (fun collectionId =>
          ({ productId := pid, collectionId := collectionId } :
            ProductCollectionRow))).filter
          (fun r => r.productId != pid)) = [] := by
        rw [List.filter_eq_nil_iff]
        intro r hr
        obtain ⟨cid, _, rfl⟩ := List.mem_map.mp hr
        simp
      rw [this, List.append_nil]
  · intro ids
    cases ids with
    | nil => simpa [replaceVariantCollections] using hvnil vrows
    | cons a rest =>
      simp only [replaceVariantCollections, List.length_cons]
      rw [if_pos (Nat.succ_pos _), List.filter_append, hvnil vrows,
        List.nil_append, List.filter_eq_self.mpr]
      intro r hr
      obtain ⟨cid, _, rfl⟩ := List.mem_map.mp hr
      simp
  · simpa [replaceVariantCollections] using hvnil vrows
  · intro ids
    cases ids with
    | nil => simpa [replaceVariantCollections] using hvidem vrows
    | cons a rest =>
      simp only [replaceVariantCollections, List.length_cons]
      rw [if_pos (Nat.succ_pos _), List.filter_append, hvidem vrows]
      have : (((a :: rest).map (fun collectionId =>
          ({ variantId := vid, collectionId := collectionId } :
            VariantCollectionRow))).filter
          (fun r => r.variantId != vid)) = [] := by
        rw [List.filter_eq_nil_iff]
        intro r hr
        obtain ⟨cid, _, rfl⟩ := List.mem_map.mp hr
        simp
      rw [this, List.append_nil]

/-- Claim C5: a style-create request with a name and a fitType
succeeds with 201 and stores the upper-cased fitType when that upper
case is one of the four enumerated values (and the name is not
already taken, since a duplicate name throws P2002); when the upper
case is outside the enum the request is a 400 and nothing is
inserted. -/
theorem style_create_fit_type_spec (styles : List StyleRow)
    (name fitType : String) (hn : name ≠ "") (hf : fitType ≠ "") :
    (validFitTypes.contains fitType.jsToUpperCase = true →
      styles.any (fun s => s.name == name.jsTrim) = false →
      (createStyle styles name fitType).status = 201 ∧
      (createStyle styles name fitType).data =
        some { name := name.jsTrim, fitType := fitType.jsToUpperCase } ∧
      (createStyle styles name fitType).styles =
        styles ++ [{ name := name.jsTrim, fitType := fitType.jsToUpperCase }]) ∧
    (validFitTypes.contains fitType.jsToUpperCase = false →
      (createStyle styles name fitType).status = 400 ∧
      (createStyle styles name fitType).styles = styles) := by
  constructor
  · intro hvalid hfresh
    have hm : fitType.jsToUpperCase ∈ validFitTypes := by simpa using hvalid
    simp [createStyle, hn, hf, hm, hfresh]
  · intro hinvalid
    have hm : fitType.jsToUpperCase ∉ validFitTypes := by simpa using hinvalid
    simp [createStyle, hn, hf, hm]

/-- Witness for C5 at the scenario of the spec: fit type "skinny" is
normalized to "SKINNY" with a 201, and fit type "WIDE" is a 400 with
the store untouched. -/
theorem style_create_fit_type_spec_witness :
    ((createStyle [] "X" "skinny").status = 201 ∧
      (createStyle [] "X" "skinny").data =
        some { name := "X", fitType := "SKINNY" }) ∧
    ((createStyle [] "Y" "WIDE").status = 400 ∧
      (createStyle [] "Y" "WIDE").styles = []) := by
  have h1 := (style_create_fit_type_spec [] "X" "skinny"
    (by decide) (by decide)).1 (by decide) (by decide)
  have h2 := (style_create_fit_type_spec [] "Y" "WIDE"
    (by decide) (by decide)).2 (by decide)
  exact ⟨⟨h1.1, h1.2.1.trans (by decide)⟩, h2⟩

/-- Inserting with skipDuplicates grows the store by exactly the
reported count. -/
theorem createManySkipDuplicates_length {α : Type} (key : α → String)
    (rows : List α) : ∀ store : List α,
    (createManySkipDuplicates key store rows).1.length =
      store.length + (createManySkipDuplicates key store rows).2 := by
  induction rows with
  | nil =>
    intro store
    simp [createManySkipDuplicates]
  | cons r rest ih =>
    intro store
    cases hb : store.any (fun x => key x == key r) with
    | true =>
      simpa [createManySkipDuplicates, hb] using ih store
    | false =>
      have hrec := ih (store ++ [r])
      simp [createManySkipDuplicates, hb, List.length_append] at hrec ⊢
      omega

/-- Every row of the store after a skipDuplicates insert was either
already stored or came from the inserted batch. -/
theorem createManySkipDuplicates_mem {α : Type} (key : α → String)
    (rows : List α) : ∀ (store : List α) (a : α),
    a ∈ (createManySkipDuplicates key store rows).1 →
      a ∈ store ∨ a ∈ rows := by
  induction rows with
  | nil =>
    intro store a h
    simp [createManySkipDuplicates] at h
    exact Or.inl h
  | cons r rest ih =>
    intro store a h
    cases hb : store.any (fun x => key x == key r) with
    | true =>
      simp only [createManySkipDuplicates, hb, if_true] at h
      rcases ih store a h with h1 | h2
      · exact Or.inl h1
      · exact Or.inr (List.mem_cons_of_mem _ h2)
    | false =>
      simp only [createManySkipDuplicates, hb, Bool.false_eq_true,
        if_false] at h
      rcases ih (store ++ [r]) a h with h1 | h2
      · rcases List.mem_append.mp h1 with h3 | h4
        · exact Or.inl h3
        · exact Or.inr (by simpa using Or.inl (List.mem_singleton.mp h4))
      · exact Or.inr (List.mem_cons_of_mem _ h2)

/-- A skipDuplicates insert preserves distinctness of the unique key:
no two stored rows ever share a key. -/
theorem createManySkipDuplicates_nodup {α : Type} (key : α → String)
    (rows : List α) : ∀ store : List α,
    (store.map key).Nodup →
      ((createManySkipDuplicates key store rows).1.map key).Nodup := by
  induction rows with
  | nil =>
    intro store h
    simpa [createManySkipDuplicates] using h
  | cons r rest ih =>
    intro store h
    cases hb : store.any (fun x => key x == key r) with
    | true =>
      simpa [createManySkipDuplicates, hb] using ih store h
    | false =>
      have hnotin : key r ∉ store.map key := by
        intro hmem
        obtain ⟨x, hx, hkx⟩ := List.mem_map.mp hmem
        have hany : store.any (fun x => key x == key r) = true :=
          List.any_eq_true.mpr ⟨x, hx, by simp [hkx]⟩
        rw [hb] at hany
        cases hany
      have h2 : ((store ++ [r]).map key).Nodup := by
        rw [List.map_append]
        simp [List.nodup_append, h, hnotin]
      simpa [createManySkipDuplicates, hb] using ih (store ++ [r]) h2

/-- Claim C6: a non-empty bulk batch (colors or styles) has its
entries missing required fields filtered out; when none remain the
whole batch is rejected with 400 before any insert and the store is
unchanged; otherwise the remaining entries are inserted with
duplicate unique keys skipped, the reported count is exactly the
number of rows actually added, every stored row is an old row or a
valid entry of the batch, and key distinctness is preserved. -/
theorem bulk_create_spec (cstore : List ColorRow) (colors : List ColorInput)
    (sstore : List StyleRow) (styles : List StyleInput) :
    ((colors ≠ [] → colors.filter colorInputValid = [] →
        (bulkCreateColors cstore colors).status = 400 ∧
        (bulkCreateColors cstore colors).store = cstore ∧
        (bulkCreateColors cstore colors).count = none) ∧
      (colors.filter colorInputValid ≠ [] →
        (bulkCreateColors cstore colors).status = 201 ∧
        (bulkCreateColors cstore colors).count =
          some ((bulkCreateColors cstore colors).store.length -
            cstore.length) ∧
        (∀ r ∈ (bulkCreateColors cstore colors).store, r ∈ cstore ∨
          r ∈ (colors.filter colorInputValid).map colorInputRow) ∧
        ((cstore.map (fun r => r.name)).Nodup →
          ((bulkCreateColors cstore colors).store.map
            (fun r => r.name)).Nodup))) ∧
    ((styles ≠ [] → styles.filter styleInputValid = [] →
        (bulkCreateStyles sstore styles).status = 400 ∧
        (bulkCreateStyles sstore styles).store = sstore ∧
        (bulkCreateStyles sstore styles).count = none) ∧
      (styles.filter styleInputValid ≠ [] →
        (bulkCreateStyles sstore styles).status = 201 ∧
        (bulkCreateStyles sstore styles).count =
          some ((bulkCreateStyles sstore styles).store.length -
            sstore.length) ∧
        (∀ r ∈ (bulkCreateStyles sstore styles).store, r ∈ sstore ∨
          r ∈ (styles.filter styleInputValid).map styleInputRow) ∧
        ((sstore.map (fun r => r.name)).Nodup →
          ((bulkCreateStyles sstore styles).store.map
            (fun r => r.name)).Nodup))) := by
  refine ⟨⟨?_, ?_⟩, ⟨?_, ?_⟩⟩
  · intro hne hinv
    have h1 : colors.isEmpty = false := by
      cases colors with
      | nil => exact absurd rfl hne
      | cons a l => rfl
    simp [bulkCreateColors, h1, hinv]
  · intro hvalid
    have hne : colors ≠ [] := by
      intro h
      subst h
      exact hvalid rfl
    have h1 : colors.isEmpty = false := by
      cases colors with
      | nil => exact absurd rfl hne
      | cons a l => rfl
    have h2 : (colors.filter colorInputValid).isEmpty = false := by
      cases hfe : colors.filter colorInputValid with
      | nil => exact absurd hfe hvalid
      | cons a l => rfl
    have hlen := createManySkipDuplicates_length (fun r => r.name)
      ((colors.filter colorInputValid).map colorInputRow) cstore
    have hmem := createManySkipDuplicates_mem (fun r => r.name)
      ((colors.filter colorInputValid).map colorInputRow) cstore
    have hnd := createManySkipDuplicates_nodup (fun r => r.name)
      ((colors.filter colorInputValid).map colorInputRow) cstore
    refine ⟨?_, ?_, ?_, ?_⟩
    · simp [bulkCreateColors, h1, h2]
    · simp only [bulkCreateColors, h1, h2, Bool.false_eq_true, if_false]
      rw [Option.some.injEq]
      omega
    · intro r hr
      simp only [bulkCreateColors, h1, h2, Bool.false_eq_true,
        if_false] at hr
      exact hmem r hr
    · intro hnodup
      simp only [bulkCreateColors, h1, h2, Bool.false_eq_true, if_false]
      exact hnd hnodup
  · intro hne hinv
    have h1 : styles.isEmpty = false := by
      cases styles with
      | nil => exact absurd rfl hne
      | cons a l => rfl
    simp [bulkCreateStyles, h1, hinv]
  · intro hvalid
    have hne : styles ≠ [] := by
      intro h
      subst h
      exact hvalid rfl
    have h1 : styles.isEmpty = false := by
      cases styles with
      | nil => exact absurd rfl hne
      | cons a l => rfl
    have h2 : (styles.filter styleInputValid).isEmpty = false := by
      cases hfe : styles.filter styleInputValid with
      | nil => exact absurd hfe hvalid
      | cons a l => rfl
    have hlen := createManySkipDuplicates_length (fun r => r.name)
      ((styles.filter styleInputValid).map styleInputRow) sstore
    have hmem := createManySkipDuplicates_mem (fun r => r.name)
      ((styles.filter styleInputValid).map styleInputRow) sstore
    have hnd := createManySkipDuplicates_nodup (fun r => r.name)
      ((styles.filter styleInputValid).map styleInputRow) sstore
    refine ⟨?_, ?_, ?_, ?_⟩
    · simp [bulkCreateStyles, h1, h2]
    · simp only [bulkCreateStyles, h1, h2, Bool.false_eq_true, if_false]
      rw [Option.some.injEq]
      omega
    · intro r hr
      simp only [bulkCreateStyles, h1, h2, Bool.false_eq_true,
        if_false] at hr
      exact hmem r hr
    · intro hnodup
      simp only [bulkCreateStyles, h1, h2, Bool.false_eq_true, if_false]
      exact hnd hnodup

/-- Witness for C6: a colors batch whose valid entries share one name
inserts exactly one row; a batch with no valid entry is a wholesale
400 with the store unchanged; same for styles with an invalid fit
type filtered out. -/
theorem bulk_create_spec_witness :
    ((bulkCreateColors [] [⟨some "Red", none⟩, ⟨none, some "#fff"⟩,
        ⟨some "Red", some "#f00"⟩]).status = 201 ∧
      (bulkCreateColors [] [⟨some "Red", none⟩, ⟨none, some "#fff"⟩,
        ⟨some "Red", some "#f00"⟩]).count = some 1) ∧
    ((bulkCreateColors [] [⟨none, some "#fff"⟩]).status = 400 ∧
      (bulkCreateColors [] [⟨none, some "#fff"⟩]).store = []) ∧
    ((bulkCreateStyles [] [⟨some "Slim", some "skinny"⟩,
        ⟨some "Wide", some "wide"⟩]).status = 201 ∧
      (bulkCreateStyles [] [⟨some "Slim", some "skinny"⟩,
        ⟨some "Wide", some "wide"⟩]).count = some 1) ∧
    (bulkCreateStyles [] [⟨some "X", some "wide"⟩]).status = 400 := by
  have hcg := (bulk_create_spec [] [⟨some "Red", none⟩, ⟨none, some "#fff"⟩,
    ⟨some "Red", some "#f00"⟩] [] []).1.2 (by decide)
  have hcb := (bulk_create_spec [] [⟨none, some "#fff"⟩] [] []).1.1
    (by decide) (by decide)
  have hsg := (bulk_create_spec [] [] [] [⟨some "Slim", some "skinny"⟩,
    ⟨some "Wide", some "wide"⟩]).2.2 (by decide)
  have hsb := (bulk_create_spec [] [] [] [⟨some "X", some "wide"⟩]).2.1
    (by decide) (by decide)
  exact ⟨⟨hcg.1, hcg.2.1.trans (by decide)⟩, ⟨hcb.1, hcb.2.1⟩,
    ⟨hsg.1, hsg.2.1.trans (by decide)⟩, hsb.1⟩

/-- Counterexample for C7: a product whose inStock flag is true but
whose stock count is zero is selected by the products inStock=true
filter, so that filter is not the stock-count predicate the claim
states — the products list filters on the boolean flag. -/
theorem in_stock_filter_cex :
    productInStockWhere "true"
      { inStock := true, quantityInStock := 0 } = true ∧
    ¬(0 < ({ inStock := true, quantityInStock := 0 } :
      ProductStockRow).quantityInStock) := by
  decide

/-- Amended C7: on the variants list, inStock=true selects exactly
the records with stock above zero and every other value those with
stock at most zero; on the products list, the filter compares the
boolean inStock flag instead — inStock=true selects exactly the
records whose flag is true and every other value those whose flag is
false. -/
theorem in_stock_filter_amended (q : String) (variants : List Int)
    (products : List ProductStockRow) (s : Int) (p : ProductStockRow)
    (hq : q ≠ "true") :
    (s ∈ variants.filter (variantStockWhere "true") ↔
      s ∈ variants ∧ 0 < s) ∧
    (s ∈ variants.filter (variantStockWhere q) ↔
      s ∈ variants ∧ s ≤ 0) ∧
    (p ∈ products.filter (productInStockWhere "true") ↔
      p ∈ products ∧ p.inStock = true) ∧
    (p ∈ products.filter (productInStockWhere q) ↔
      p ∈ products ∧ p.inStock = false) := by
  have hq2 : (q == "true") = false := by simpa using hq
  refine ⟨?_, ?_, ?_, ?_⟩ <;>
    simp [List.mem_filter, variantStockWhere, productInStockWhere, hq2]

/-- Witness for the amended C7 at concrete stores. -/
theorem in_stock_filter_amended_witness :
    (3 : Int) ∈ ([3, -2] : List Int).filter (variantStockWhere "true") ∧
    (-2 : Int) ∈ ([3, -2] : List Int).filter (variantStockWhere "false") ∧
    ({ inStock := false, quantityInStock := 7 } : ProductStockRow) ∈
      ([{ inStock := false, quantityInStock := 7 }] :
        List ProductStockRow).filter (productInStockWhere "false") := by
  have h1 := in_stock_filter_amended "false" [3, -2] [] 3
    ⟨true, 0⟩ (by decide)
  have h2 := in_stock_filter_amended "false" [3, -2] [] (-2)
    ⟨true, 0⟩ (by decide)
  have h3 := in_stock_filter_amended "false" []
    [{ inStock := false, quantityInStock := 7 }] 0
    ⟨false, 7⟩ (by decide)
  exact ⟨h1.1.mpr (by decide), h2.2.1.mpr (by decide),
    h3.2.2.2.mpr (by decide)⟩

/-- Counterexample for C8: the 500 response of the products list
catch block carries the underlying error message unconditionally —
the handler never consults NODE_ENV, so outside development mode the
message is still revealed. -/
theorem error_message_withheld_cex :
    (productsListCatch "database timeout").status = 500 ∧
    (productsListCatch "database timeout").message =
      some "database timeout" :=
  ⟨rfl, rfl⟩

/-- Amended C8: errors reaching the global error handler with an
unrecognized code are answered 500 with the message withheld unless
NODE_ENV is development (P2002 and P2025 keep their 400/404); but the
route-level catch blocks answer 500 with the underlying message
included regardless of environment. -/
theorem error_message_withheld_amended (code : Option String)
    (env msg : String) (h2002 : code ≠ some "P2002")
    (h2025 : code ≠ some "P2025") :
    ((globalErrorHandler code env msg).status = 500) ∧
    (env ≠ "development" →
      (globalErrorHandler code env msg).message =
        some "Something went wrong.") ∧
    ((globalErrorHandler code "development" msg).message = some msg) ∧
    (∀ m, (productsListCatch m).status = 500 ∧
      (productsListCatch m).message = some m) ∧
    ((globalErrorHandler (some "P2002") env msg).status = 400) ∧
    ((globalErrorHandler (some "P2025") env msg).status = 404) := by
  have hc2 : (code == some "P2002") = false := by simpa using h2002
  have hc5 : (code == some "P2025") = false := by simpa using h2025
  refine ⟨?_, ?_, ?_, ?_, ?_, ?_⟩
  · simp [globalErrorHandler, hc2, hc5]
  · intro henv
    have he : (env == "development") = false := by simpa using henv
    simp [globalErrorHandler, hc2, hc5, he]
  · simp [globalErrorHandler, hc2, hc5]
  · intro m
    exact ⟨rfl, rfl⟩
  · simp [globalErrorHandler]
  · simp [globalErrorHandler]

/-- Witness for the amended C8 in a production environment. -/
theorem error_message_withheld_amended_witness :
    (globalErrorHandler none "production" "boom").status = 500 ∧
    (globalErrorHandler none "production" "boom").message =
      some "Something went wrong." ∧
    (globalErrorHandler none "development" "boom").message =
      some "boom" ∧
    (productsListCatch "boom").message = some "boom" := by
  have h := error_message_withheld_amended none "production" "boom"
    (by decide) (by decide)
  exact ⟨h.1, h.2.1 (by decide), h.2.2.1, (h.2.2.2.1 "boom").2⟩

/-- Counterexample for C9: the non-matching-route 404 body has no
success field at all, and the variant-not-found 404 envelope has no
message field — so not every failure is a full
success/error/message envelope. -/
theorem failure_envelope_cex :
    (notFoundRouteHandler "/api/v2/nope").status = 404 ∧
    (notFoundRouteHandler "/api/v2/nope").success = none ∧
    (patchVariantStock [] "missing" (some 1) none).status = 404 ∧
    (patchVariantStock [] "missing" (some 1) none).success = some false ∧
    (patchVariantStock [] "missing" (some 1) none).message = none :=
  ⟨rfl, rfl, rfl, rfl, rfl⟩

/-- Amended C9: failure responses of the route handlers carry
success false and an error category with the status chosen by
category (400 validation or conflict, 404 missing, 500 unexpected),
though several 400/404 envelopes omit the message detail; the
non-matching-route 404 and the global error handler responses carry
error and message but no success flag. -/
theorem failure_envelope_amended (url : String) (code : Option String)
    (env msg : String) (variants : List Variant) (vid : String)
    (stock : Option Int) (op : Option String) (c : Catalog) (id : String)
    (sstore : List StyleRow) (nm ft : String) (cstore : List ColorRow)
    (colors : List ColorInput) :
    ((notFoundRouteHandler url).status = 404 ∧
      (notFoundRouteHandler url).success = none ∧
      (notFoundRouteHandler url).error = some "Route not found" ∧
      (notFoundRouteHandler url).message ≠ none) ∧
    ((globalErrorHandler code env msg).success = none ∧
      (globalErrorHandler code env msg).error ≠ none ∧
      (globalErrorHandler code env msg).message ≠ none ∧
      ((globalErrorHandler code env msg).status = 400 ∨
        (globalErrorHandler code env msg).status = 404 ∨
        (globalErrorHandler code env msg).status = 500)) ∧
    ((patchVariantStock variants vid stock op).status ≠ 200 →
      (patchVariantStock variants vid stock op).success = some false ∧
      (patchVariantStock variants vid stock op).error ≠ none ∧
      ((patchVariantStock variants vid stock op).status = 400 ∨
        (patchVariantStock variants vid stock op).status = 404)) ∧
    ((deleteColor c id).status ≠ 200 →
      (deleteColor c id).success = some false ∧
      (deleteColor c id).error ≠ none ∧
      ((deleteColor c id).status = 400 ∨ (deleteColor c id).status = 404)) ∧
    ((createStyle sstore nm ft).status ≠ 201 →
      (createStyle sstore nm ft).success = some false ∧
      (createStyle sstore nm ft).error ≠ none ∧
      (createStyle sstore nm ft).status = 400) ∧
    ((bulkCreateColors cstore colors).status ≠ 201 →
      (bulkCreateColors cstore colors).success = some false ∧
      (bulkCreateColors cstore colors).error ≠ none ∧
      (bulkCreateColors cstore colors).status = 400) ∧
    ((productsListCatch msg).status = 500 ∧
      (productsListCatch msg).success = some false ∧
      (productsListCatch msg).error ≠ none ∧
      (productsListCatch msg).message = some msg) := by
  refine ⟨⟨rfl, rfl, rfl, by simp [notFoundRouteHandler]⟩, ?_, ?_, ?_, ?_,
    ?_, ⟨rfl, rfl, by simp [productsListCatch], rfl⟩⟩
  · refine ⟨?_, ?_, ?_, ?_⟩ <;>
      · simp only [globalErrorHandler]
        split_ifs <;> simp
  · intro hst
    cases stock with
    | none =>
      exact ⟨rfl, by simp [patchVariantStock], Or.inl rfl⟩
    | some input =>
      cases hf : findVariant variants vid with
      | none =>
        refine ⟨?_, ?_, Or.inr ?_⟩ <;> simp [patchVariantStock, hf]
      | some v =>
        exact absurd (by simp [patchVariantStock, hf]) hst
  · intro hst
    simp only [deleteColor] at hst ⊢
    split_ifs at hst ⊢
    · exact ⟨rfl, by simp, Or.inr rfl⟩
    · exact ⟨rfl, by simp, Or.inl rfl⟩
    · exact absurd rfl hst
  · intro hst
    simp only [createStyle] at hst ⊢
    split_ifs at hst ⊢
    · exact ⟨rfl, by simp, rfl⟩
    · exact ⟨rfl, by simp, rfl⟩
    · exact ⟨rfl, by simp, rfl⟩
    · exact ⟨rfl, by simp, rfl⟩
    · exact absurd rfl hst
  · intro hst
    simp only [bulkCreateColors] at hst ⊢
    split_ifs at hst ⊢
    · exact ⟨rfl, by simp, rfl⟩
    · exact ⟨rfl, by simp, rfl⟩
    · exact absurd rfl hst

/-- Witness for the amended C9 at concrete failing requests. -/
theorem failure_envelope_amended_witness :
    (notFoundRouteHandler "/nope").success = none ∧
    (patchVariantStock [] "x" none none).success = some false ∧
    (deleteColor catalogReferenced "c1").success = some false ∧
    (createStyle [] "" "skinny").success = some false ∧
    (bulkCreateColors [] []).success = some false ∧
    (productsListCatch "boom").success = some false := by
  have h := failure_envelope_amended "/nope" none "production" "boom"
    [] "x" none none catalogReferenced "c1" [] "" "skinny" [] []
  exact ⟨h.1.2.1, (h.2.2.1 (by decide)).1, (h.2.2.2.1 (by decide)).1,
    (h.2.2.2.2.1 (by decide)).1, (h.2.2.2.2.2.1 (by decide)).1,
    h.2.2.2.2.2.2.2.1⟩
